import Mathlib

/-!
Verification of the PDF-generation pipeline repository (htmlGenerator.py,
htmlToPdf.py, workflow.py, errorLogger.py, supabaseUploader.py).

The development shallowly embeds the control flow and the pure data policies
of the pipeline:
  - filename sanitization from PDFConverter.load_data (htmlToPdf.py 42-59);
  - template-set resolution from HTMLGenerator.load_data (htmlGenerator.py 59-71);
  - the per-template render/skip loop from HTMLGenerator.generate_html_files
    (htmlGenerator.py 143-157);
  - the rasterizer import / lazy-install / retry recursion from
    PDFConverter.convert_html_to_pdf and install_playwright (htmlToPdf.py 66-168);
  - the conversion run with its HTML cleanup from PDFConverter.run and
    cleanup_html_files (htmlToPdf.py 170-248);
  - the orchestrator run from WorkflowOrchestrator (workflow.py 79-397) with
    its error-record emission to the error sink (errorLogger.py 102-179).

External effects (Jinja rendering, the browser engine, the object store,
the error sink, the file system) are modelled as environment parameters:
functions from inputs to outcomes, exactly at the points where the Python
code calls out.
-/

namespace PdfGen

/-! Filename sanitization, embedded from PDFConverter.load_data
(htmlToPdf.py 42-59).  The source reads the client company name with
`data.get('client', {}).get('company', 'offer')` - so the literal fallback
"offer" is substituted only when the key is absent - and then builds
`"".join(c if c.isalnum() or c in (' ', '-', '_') else '_' for c in name)`
followed by the fixed suffix ".pdf".  Python's str.isalnum is modelled by
Char.isAlphanum, which agrees with it on ASCII and on every character used
in the claims. -/

/-- Characters the sanitizer keeps verbatim: alphanumeric, space, hyphen,
underscore (the membership test of the generator expression). -/
def keepChar (c : Char) : Bool :=
  c.isAlphanum || c == ' ' || c == '-' || c == '_'

/-- Per-character step of the sanitizer generator expression. -/
def sanitizeChar (c : Char) : Char :=
  if keepChar c then c else '_'

/-- Sanitized base name: the join of the per-character step over the whole
company name. -/
def sanitizeBase (s : String) : String :=
  String.mk (s.data.map sanitizeChar)

/-- Filename computed by PDFConverter.load_data.  The argument is the value
of the client company field: none when the key is absent (the dict.get
fallback "offer" is then used), some s when the field holds s. -/
def pdf_filename (company : Option String) : String :=
  sanitizeBase (company.getD "offer") ++ ".pdf"

/-- Base name of a derived filename: the characters before the four-character
".pdf" suffix. -/
def baseOf (f : String) : String :=
  String.mk (f.data.take (f.data.length - 4))

/-- Test for a nonempty base name made only of underscores. -/
def allUnderscores (s : String) : Bool :=
  !s.data.isEmpty && s.data.all (fun c => c == '_')

/-! Template-set resolution, embedded from HTMLGenerator.load_data
(htmlGenerator.py 59-71).  The source computes
`data.get('OfferLanguage', 'English').strip()` and compares its `.lower()`
against "polish" and "english", defaulting to the English folder. -/

/-- Whitespace stripped by Python's str.strip. -/
def pyIsSpace (c : Char) : Bool :=
  c == ' ' || c == '\t' || c == '\n' || c == '\r' || c == '\x0b' || c == '\x0c'

/-- Python str.strip: drop whitespace from both ends. -/
def pyStrip (l : List Char) : List Char :=
  ((l.dropWhile pyIsSpace).reverse.dropWhile pyIsSpace).reverse

/-- Python str.lower, on the ASCII letters the recognized tags use. -/
def pyLower (l : List Char) : List Char :=
  l.map Char.toLower

/-- Template folder chosen by HTMLGenerator.load_data from the OfferLanguage
tag: none models an absent key (dict.get then yields "English"). -/
def resolve_templates_folder (offerLanguage : Option String) : String :=
  let lang := pyStrip (offerLanguage.getD "English").data
  if pyLower lang = "polish".data then "templates-Polish"
  else if pyLower lang = "english".data then "templates-English"
  else "templates-English"

/-! Per-template rendering, embedded from HTMLGenerator.generate_html_files
(htmlGenerator.py 143-157).  Each template is rendered inside try/except:
on an exception the failure is printed and the page skipped, on success the
output path is appended.  The render environment maps a template name to
some rendered page, or none when render_template raises; the returned list
keeps the successfully rendered template names in list order. -/

/-- Successfully generated pages, in template-list order, as produced by the
append-on-success loop of generate_html_files. -/
def generate_html_files (render : String → Option String) (templateList : List String) :
    List String :=
  templateList.filter (fun t => (render t).isSome)

/-- Default template list used by the workflow and the generator: the four
configurable pages plus the distinguished closing page. -/
def defaultTemplateList : List String :=
  ["coverpage.html", "page1.html", "page2.html", "page3.html", "endingpage.html"]

/-! Rasterizer import, lazy install and retry, embedded from
PDFConverter.convert_html_to_pdf and PDFConverter.install_playwright
(htmlToPdf.py 66-168).  The try block first imports playwright; ImportError
triggers install_playwright and then a recursive call of the whole
conversion; a failed install subprocess raises out of the method; any other
exception in the try block makes the method return None.  The environment
answers, per attempt index, whether the import succeeds and whether the
install subprocess succeeds; the recursion carries explicit fuel because
the source recursion has no bound of its own. -/

structure RasterEnv where
  importOk : Nat → Bool
  installOk : Nat → Bool
  rasterOk : Bool
  pdfPath : String

inductive ConvertOutcome where
  | ok (path : String)
  | failed
  | raised
  | outOfFuel
  deriving DecidableEq, Repr

/-- Outcome of convert_html_to_pdf, by attempt: a successful import runs the
browser conversion (ok on success, failed - meaning a returned None - on an
exception); a failed import runs the install and on install success the
whole call recurses, while on install failure the exception propagates. -/
def convert_html_to_pdf (env : RasterEnv) : Nat → Nat → ConvertOutcome
  | 0, _ => .outOfFuel
  | fuel + 1, attempt =>
    if env.importOk attempt then
      if env.rasterOk then .ok env.pdfPath else .failed
    else if env.installOk attempt then
      convert_html_to_pdf env fuel (attempt + 1)
    else .raised

/-- Number of install_playwright invocations performed by the recursion
within the given fuel. -/
def installAttempts (env : RasterEnv) : Nat → Nat → Nat
  | 0, _ => 0
  | fuel + 1, attempt =>
    if env.importOk attempt then 0
    else if env.installOk attempt then 1 + installAttempts env fuel (attempt + 1)
    else 1

/-- Number of recursive re-invocations (retries of the conversion call)
performed within the given fuel. -/
def retryCalls (env : RasterEnv) : Nat → Nat → Nat
  | 0, _ => 0
  | fuel + 1, attempt =>
    if env.importOk attempt then 0
    else if env.installOk attempt then 1 + retryCalls env fuel (attempt + 1)
    else 0

/-- Environment in which the playwright import fails on every attempt while
the install subprocess keeps reporting success. -/
def persistentlyUnavailable : RasterEnv :=
  ⟨fun _ => false, fun _ => true, true, "offer.pdf"⟩

/-- Environment in which the first successful install makes the import
succeed from the next attempt on. -/
def recoverableEnv : RasterEnv :=
  ⟨fun n => decide (0 < n), fun _ => true, true, "offer.pdf"⟩

/-! Conversion run and HTML cleanup, embedded from PDFConverter.run and
PDFConverter.cleanup_html_files (htmlToPdf.py 170-248). -/

/-- Outcome of one orchestrated step: a produced path, a returned None, or a
propagated exception carrying the Python exception type name. -/
inductive StepOutcome where
  | ok (path : String)
  | failed
  | raised (errName : String)
  deriving DecidableEq, Repr

/-- Default deletion list of cleanup_html_files: the four intermediate pages
only - the source comments that endingpage.html is permanent and is never
put on this list. -/
def defaultCleanupFiles : List String :=
  ["coverpage.html", "page1.html", "page2.html", "page3.html"]

/-- State of the HTML input folder after cleanup_html_files: every name on
the deletion list that exists and unlinks successfully is removed; unlink
failures are printed and the file stays. -/
def cleanup_html_files (unlinkOk : String → Bool) (folder : List String)
    (filesToDelete : Option (List String)) : List String :=
  let files := filesToDelete.getD defaultCleanupFiles
  folder.filter (fun f => !(files.contains f && unlinkOk f))

/-- PDFConverter.run: checks the requested HTML files for existence
(returning None when any is missing), runs the conversion, and performs the
default cleanup exactly when a PDF path was produced and the cleanup flag is
set.  Returns the conversion outcome and the final folder state. -/
def converter_run (convertOutcome : StepOutcome) (cleanup : Bool)
    (unlinkOk : String → Bool) (folder : List String) (htmlFiles : List String) :
    StepOutcome × List String :=
  if htmlFiles.any (fun f => !(folder.contains f)) then
    (.failed, folder)
  else
    match convertOutcome with
    | .ok p => (.ok p, if cleanup then cleanup_html_files unlinkOk folder none else folder)
    | o => (o, folder)

/-- All five generated page files, present in the HTML output folder after a
full render. -/
def allFivePages : List String :=
  ["coverpage.html", "page1.html", "page2.html", "page3.html", "endingpage.html"]

/-! Workflow orchestration, embedded from WorkflowOrchestrator
(workflow.py 79-397) together with the error-record shape produced by
ErrorLogger.log_error and log_workflow_error (errorLogger.py 102-223).
The error sink is an optional record consumer returning the write result;
the orchestrator calls it only when a logger is configured and never reads
the returned value. -/

/-- Structured error event handed to the error sink: the error name and the
last node executed, the two fields the orchestrator chooses per call site. -/
structure ErrorRecord where
  errorName : String
  lastNode : String
  deriving DecidableEq, Repr

inductive UploadOutcome where
  | success (url : String)
  | failure (err : String)
  | raised (errName : String)
  deriving DecidableEq, Repr

/-- Orchestrator configuration after initialize_components resolved the
optional collaborators: uploadToSupabase already accounts for an
unconfigured or unavailable uploader. -/
structure WConfig where
  cleanupHtml : Bool
  uploadToSupabase : Bool
  deleteLocalAfterUpload : Bool

/-- Environment of one workflow run: existence of the data file, existence
of the auto-selected templates folder (setup_jinja_environment raises when
it is missing), the per-template render outcomes, the outcome of the PDF
converter run, the upload outcome, and whether the local-PDF unlink call
succeeds. -/
structure WEnv where
  dataFileExists : Bool
  templatesFolderOk : Bool
  render : String → Option String
  convertOutcome : StepOutcome
  upload : UploadOutcome
  pdfUnlinkOk : Bool

/-- Observable outcome of WorkflowOrchestrator.run: the returned location
(none on abort), the stage that aborted the run (none on success), the
error records handed to the sink, the write results the sink returned (and
the orchestrator ignored), and whether the local PDF file still exists. -/
structure RunOutput where
  result : Option String
  abortStage : Option String
  records : List ErrorRecord
  writes : List Bool
  pdfExists : Bool
  deriving DecidableEq, Repr

/-- Records handed to the sink at one failure site: one record when a logger
is configured, none otherwise (the code guards every call with a check that
the logger object exists). -/
def emit (sink : Option (ErrorRecord → Bool)) (r : ErrorRecord) : List ErrorRecord :=
  match sink with
  | none => []
  | some _ => [r]

/-- Write results returned by the sink at one failure site; the orchestrator
discards them. -/
def sinkWrite (sink : Option (ErrorRecord → Bool)) (r : ErrorRecord) : List Bool :=
  match sink with
  | none => []
  | some f => [f r]

/-- Run outcome of an aborting stage: no location, one error record handed
to the sink, no PDF on disk. -/
def abortOutput (sink : Option (ErrorRecord → Bool)) (errorName stage : String) : RunOutput :=
  ⟨none, some stage, emit sink ⟨errorName, stage⟩, sinkWrite sink ⟨errorName, stage⟩, false⟩

/-- WorkflowOrchestrator.run: validate the input file, generate the HTML
pages (aborting when the templates folder is missing or when no page
rendered), convert to PDF (aborting on a returned None or a raised
exception), optionally upload (an upload failure is logged and the run
continues with the local path; on upload success the local PDF is deleted
when the delete-local option is set, and a deletion failure leaves the file
but keeps the run successful), and return the remote URL when upload
succeeded, else the local path. -/
def workflow_run (cfg : WConfig) (env : WEnv) (templates : List String)
    (sink : Option (ErrorRecord → Bool)) : RunOutput :=
  match env.dataFileExists with
  | false => ⟨none, some "validate_input", [], [], false⟩
  | true =>
    match env.templatesFolderOk with
    | false => abortOutput sink "FileNotFoundError" "generate_html"
    | true =>
      match generate_html_files env.render templates with
      | [] => abortOutput sink "HTMLGenerationError" "generate_html"
      | _ :: _ =>
        match env.convertOutcome with
        | .raised e => abortOutput sink e "convert_to_pdf"
        | .failed => abortOutput sink "PDFConversionError" "convert_to_pdf"
        | .ok pdfPath =>
          match cfg.uploadToSupabase with
          | false => ⟨some pdfPath, none, [], [], true⟩
          | true =>
            match env.upload with
            | .success url =>
              ⟨some url, none, [], [],
                !(cfg.deleteLocalAfterUpload && env.pdfUnlinkOk)⟩
            | .failure _ =>
              ⟨some pdfPath, none,
                emit sink ⟨"SupabaseUploadError", "upload_to_supabase_storage"⟩,
                sinkWrite sink ⟨"SupabaseUploadError", "upload_to_supabase_storage"⟩, true⟩
            | .raised e =>
              ⟨some pdfPath, none,
                emit sink ⟨e, "upload_to_supabase_storage"⟩,
                sinkWrite sink ⟨e, "upload_to_supabase_storage"⟩, true⟩

/-- Configuration with upload disabled. -/
def cfgNoUpload : WConfig :=
  ⟨true, false, true⟩

/-- Configuration with upload enabled and delete-local-after-upload set. -/
def cfgUpload : WConfig :=
  ⟨true, true, true⟩

/-- Render environment that fails on page1.html only. -/
def renderSkipOne : String → Option String :=
  fun t => if t == "page1.html" then none else some "<html>"

/-- Workflow environment with one failing template render and a successful
conversion. -/
def envSkipOne : WEnv :=
  ⟨true, true, renderSkipOne, .ok "offer.pdf", .success "https://cdn.example/offer.pdf", true⟩

/-- Workflow environment where every render and the conversion succeed but
the upload fails. -/
def envUploadFail : WEnv :=
  ⟨true, true, fun _ => some "<html>", .ok "offer.pdf", .failure "network down", true⟩

/-- Workflow environment where render, conversion, upload and the local-PDF
deletion all succeed. -/
def envUploadOk : WEnv :=
  ⟨true, true, fun _ => some "<html>", .ok "offer.pdf",
    .success "https://cdn.example/offer.pdf", true⟩

/-! Helper lemmas. -/

lemma retryCalls_eq_zero (env : RasterEnv) (fuel attempt : Nat)
    (h : env.importOk attempt = true) : retryCalls env fuel attempt = 0 := by
  cases fuel <;> simp [retryCalls, h]

lemma installAttempts_eq_zero (env : RasterEnv) (fuel attempt : Nat)
    (h : env.importOk attempt = true) : installAttempts env fuel attempt = 0 := by
  cases fuel <;> simp [installAttempts, h]

/-! Claim theorems. -/

/-- C6: filename derivation keeps every alphanumeric, space, hyphen and
underscore character, replaces every other character with a single
underscore, and appends ".pdf"; the client display name "Acme™ Co!!"
derives "Acme_ Co__.pdf"; equal inputs give equal outputs. -/
theorem C6_filename_sanitization (s t : String) (c : Char) (hst : s = t) :
    (sanitizeBase s).data = s.data.map sanitizeChar ∧
    sanitizeChar c = (if c.isAlphanum || c == ' ' || c == '-' || c == '_' then c else '_') ∧
    pdf_filename (some "Acme™ Co!!") = "Acme_ Co__.pdf" ∧
    pdf_filename (some s) = pdf_filename (some t) := by
  refine ⟨rfl, rfl, by decide, by rw [hst]⟩

/-- C6 witness: the sanitization policy instantiated at a concrete name and
character. -/
theorem C6_filename_sanitization_witness :
    (sanitizeBase "Acme™ Co!!").data = "Acme™ Co!!".data.map sanitizeChar ∧
    sanitizeChar '™' =
      (if Char.isAlphanum '™' || '™' == ' ' || '™' == '-' || '™' == '_' then '™' else '_') ∧
    pdf_filename (some "Acme™ Co!!") = "Acme_ Co__.pdf" ∧
    pdf_filename (some "Acme™ Co!!") = pdf_filename (some "Acme™ Co!!") :=
  C6_filename_sanitization "Acme™ Co!!" "Acme™ Co!!" '™' rfl

/-- C7 counterexample: an empty company value derives the bare suffix with an
empty base name, and an entirely-invalid company value derives an
all-underscore base name; no generic default base name is substituted. -/
theorem C7_counterexample :
    baseOf (pdf_filename (some "")) = "" ∧
    allUnderscores (baseOf (pdf_filename (some "!!"))) = true ∧
    pdf_filename (some "") = ".pdf" := by
  refine ⟨by decide, by decide, by decide⟩

/-- C7 amended: the generic default base name "offer" is used only when the
client company key is absent from the data; an empty company value derives
the bare suffix and an entirely-invalid value derives an all-underscore base
name. -/
theorem C7_default_only_when_absent :
    pdf_filename none = "offer.pdf" ∧
    pdf_filename (some "") = ".pdf" ∧
    pdf_filename (some "!!!") = "___.pdf" ∧
    allUnderscores (baseOf (pdf_filename (some "!!!"))) = true := by
  refine ⟨by decide, by decide, by decide, by decide⟩

/-- C8: template-set resolution is a total function of the language tag:
after stripping and lower-casing, the Polish tag yields the Polish folder
and every other present value yields the English folder; the absent tag,
the empty tag and unrecognized tags yield the default English folder; every
input maps to one of the two fixed folders, so resolution cannot fail. -/
theorem C8_template_set_resolution (tag : Option String) (s : String) :
    resolve_templates_folder (some s) =
      (if pyLower (pyStrip s.data) = "polish".data then "templates-Polish"
       else "templates-English") ∧
    resolve_templates_folder none = "templates-English" ∧
    resolve_templates_folder (some "") = "templates-English" ∧
    resolve_templates_folder (some " POLISH ") = "templates-Polish" ∧
    resolve_templates_folder (some "english") = "templates-English" ∧
    resolve_templates_folder (some "German") = "templates-English" ∧
    (resolve_templates_folder tag = "templates-Polish" ∨
      resolve_templates_folder tag = "templates-English") := by
  refine ⟨?_, by decide, by decide, by decide, by decide, by decide, ?_⟩
  · by_cases h : pyLower (pyStrip s.data) = "polish".data <;>
      simp [resolve_templates_folder, h]
  · cases tag with
    | none => exact Or.inr (by decide)
    | some s₂ =>
      by_cases h : pyLower (pyStrip s₂.data) = "polish".data
      · exact Or.inl (by simp [resolve_templates_folder, h])
      · refine Or.inr ?_
        simp only [resolve_templates_folder, Option.getD_some, if_neg h]
        split <;> rfl

/-- C4 counterexample: when the playwright import fails on every attempt
while the install subprocess keeps reporting success, the conversion call
keeps installing and retrying - already three installs and three retries
occur within recursion depth three - and it has not failed the run, so the
recovery is not limited to one install and one retry. -/
theorem C4_counterexample :
    retryCalls persistentlyUnavailable 3 0 = 3 ∧
    installAttempts persistentlyUnavailable 3 0 = 3 ∧
    convert_html_to_pdf persistentlyUnavailable 3 0 = ConvertOutcome.outOfFuel := by
  refine ⟨by decide, by decide, by decide⟩

/-- C4 amended: the lazy install and retry of the rasterization call are
bounded by one only under the assumption that a successful install makes
the import succeed on the following attempt; under that assumption the
conversion performs at most one install and at most one retry, while
without it the recursion retries and reinstalls without bound. -/
theorem C4_retry_bound (env : RasterEnv) (fuel attempt : Nat)
    (h : ∀ n, env.installOk n = true → env.importOk (n + 1) = true) :
    retryCalls env fuel attempt ≤ 1 ∧ installAttempts env fuel attempt ≤ 1 := by
  cases fuel with
  | zero => exact ⟨by simp [retryCalls], by simp [installAttempts]⟩
  | succ n =>
    by_cases himp : env.importOk attempt = true
    · exact ⟨by simp [retryCalls, himp], by simp [installAttempts, himp]⟩
    · have himp' : env.importOk attempt = false := by
        simpa using himp
      by_cases hins : env.installOk attempt = true
      · have h2 := h attempt hins
        constructor
        · simp [retryCalls, himp', hins, retryCalls_eq_zero env n (attempt + 1) h2]
        · simp [installAttempts, himp', hins, installAttempts_eq_zero env n (attempt + 1) h2]
      · have hins' : env.installOk attempt = false := by
          simpa using hins
        exact ⟨by simp [retryCalls, himp', hins'],
          by simp [installAttempts, himp', hins']⟩

/-- C4 amended witness: in the environment where the first install makes
the import available, the bound holds concretely. -/
theorem C4_retry_bound_witness :
    retryCalls recoverableEnv 5 0 ≤ 1 ∧ installAttempts recoverableEnv 5 0 ≤ 1 :=
  C4_retry_bound recoverableEnv 5 0 (fun n _ => by simp [recoverableEnv])

/-- C5 counterexample: a cleanup-enabled conversion run over all five
generated pages that produced a PDF deletes the four intermediate pages but
leaves the closing page file in place, so the closing page artifact is not
deleted like the other generated pages. -/
theorem C5_counterexample :
    "endingpage.html" ∈ (converter_run (StepOutcome.ok "offer.pdf") true
      (fun _ => true) allFivePages allFivePages).2 ∧
    "coverpage.html" ∉ (converter_run (StepOutcome.ok "offer.pdf") true
      (fun _ => true) allFivePages allFivePages).2 := by
  refine ⟨by decide, by decide⟩

/-- C5 amended: with the cleanup flag set and a PDF produced, the run deletes
exactly those of the four fixed intermediate page names whose unlink
succeeds; the closing page endingpage.html is never deleted, even when it
was generated this run. -/
theorem C5_cleanup_preserves_closing_page (p : String) (unlinkOk : String → Bool)
    (folder htmlFiles : List String)
    (hp : "endingpage.html" ∈ folder)
    (hmiss : (htmlFiles.any fun f => !(folder.contains f)) = false) :
    (converter_run (StepOutcome.ok p) true unlinkOk folder htmlFiles).2 =
      folder.filter (fun f => !(defaultCleanupFiles.contains f && unlinkOk f)) ∧
    "endingpage.html" ∈ (converter_run (StepOutcome.ok p) true unlinkOk folder htmlFiles).2 := by
  have h1 : (converter_run (StepOutcome.ok p) true unlinkOk folder htmlFiles).2 =
      folder.filter (fun f => !(defaultCleanupFiles.contains f && unlinkOk f)) := by
    unfold converter_run
    rw [hmiss]
    simp [cleanup_html_files]
  refine ⟨h1, ?_⟩
  rw [h1]
  have hc : defaultCleanupFiles.contains "endingpage.html" = false := by decide
  exact List.mem_filter.mpr ⟨hp, by rw [hc]; rfl⟩

/-- C5 amended witness: the cleanup policy instantiated on all five generated
pages with every unlink succeeding. -/
theorem C5_cleanup_preserves_closing_page_witness :
    (converter_run (StepOutcome.ok "offer.pdf") true (fun _ => true)
        allFivePages allFivePages).2 =
      allFivePages.filter (fun f => !(defaultCleanupFiles.contains f && (fun _ => true) f)) ∧
    "endingpage.html" ∈ (converter_run (StepOutcome.ok "offer.pdf") true (fun _ => true)
      allFivePages allFivePages).2 :=
  C5_cleanup_preserves_closing_page "offer.pdf" (fun _ => true) allFivePages allFivePages
    (by decide) (by decide)

/-- C10: the converter run performs HTML cleanup only when the conversion
produced an artifact path: whenever the conversion outcome is not a path
(it returned None or raised), the HTML folder state is returned unchanged,
whatever the cleanup flag. -/
theorem C10_no_cleanup_without_pdf (o : StepOutcome) (cleanup : Bool)
    (unlinkOk : String → Bool) (folder htmlFiles : List String)
    (h : ∀ p, o ≠ StepOutcome.ok p) :
    (converter_run o cleanup unlinkOk folder htmlFiles).2 = folder := by
  unfold converter_run
  split
  · rfl
  · cases o with
    | ok p => exact absurd rfl (h p)
    | failed => rfl
    | raised e => rfl

/-- C10 witness: a failed conversion over all five pages leaves the
HTML folder untouched even with cleanup enabled. -/
theorem C10_no_cleanup_without_pdf_witness :
    (converter_run StepOutcome.failed true (fun _ => true)
      allFivePages allFivePages).2 = allFivePages :=
  C10_no_cleanup_without_pdf StepOutcome.failed true (fun _ => true) allFivePages allFivePages
    (fun _ h => StepOutcome.noConfusion h)

/-- C1: a failing individual template render is caught and that page is
skipped - a page is in the rendered list exactly when its template is in
the list and its render succeeded - and the run is aborted at the render
stage with the no-artifact result if and only if the resulting rendered
page list is empty. -/
theorem C1_render_skip_and_no_pages_abort (cfg : WConfig) (env : WEnv)
    (templates : List String) (sink : Option (ErrorRecord → Bool)) (t : String)
    (hdata : env.dataFileExists = true) (hfold : env.templatesFolderOk = true) :
    (t ∈ generate_html_files env.render templates ↔
      t ∈ templates ∧ (env.render t).isSome = true) ∧
    (((workflow_run cfg env templates sink).abortStage = some "generate_html" ∧
        (workflow_run cfg env templates sink).result = none) ↔
      generate_html_files env.render templates = []) := by
  constructor
  · simp [generate_html_files, List.mem_filter]
  · rcases hg : generate_html_files env.render templates with _ | ⟨a, l⟩
    · simp [workflow_run, hdata, hfold, hg, abortOutput]
    · rcases hco : env.convertOutcome with p | _ | e
      · rcases hup : cfg.uploadToSupabase with _ | _
        · simp [workflow_run, hdata, hfold, hg, hco, hup]
        · rcases huo : env.upload with url | err | e <;>
            simp [workflow_run, hdata, hfold, hg, hco, hup, huo]
      · simp [workflow_run, hdata, hfold, hg, hco, abortOutput]
      · simp [workflow_run, hdata, hfold, hg, hco, abortOutput]

/-- C1 witness: with one failing template out of five, the failing page is
skipped, four pages survive and the run is not aborted at the render
stage. -/
theorem C1_render_skip_and_no_pages_abort_witness :
    ("page1.html" ∈ generate_html_files envSkipOne.render defaultTemplateList ↔
      "page1.html" ∈ defaultTemplateList ∧
        (envSkipOne.render "page1.html").isSome = true) ∧
    (((workflow_run cfgNoUpload envSkipOne defaultTemplateList none).abortStage =
          some "generate_html" ∧
        (workflow_run cfgNoUpload envSkipOne defaultTemplateList none).result = none) ↔
      generate_html_files envSkipOne.render defaultTemplateList = []) :=
  C1_render_skip_and_no_pages_abort cfgNoUpload envSkipOne defaultTemplateList none
    "page1.html" rfl rfl

/-- C2: when rendering produced pages, the conversion returned a path,
upload is configured and the upload fails, the run still completes
successfully returning the local artifact path, and exactly one error
record - the upload-failure record - is emitted over the whole run. -/
theorem C2_upload_failure_nonfatal (cfg : WConfig) (env : WEnv)
    (templates : List String) (f : ErrorRecord → Bool) (p e : String)
    (hdata : env.dataFileExists = true) (hfold : env.templatesFolderOk = true)
    (hpages : generate_html_files env.render templates ≠ [])
    (hconv : env.convertOutcome = StepOutcome.ok p)
    (hup : cfg.uploadToSupabase = true)
    (hfail : env.upload = UploadOutcome.failure e) :
    (workflow_run cfg env templates (some f)).result = some p ∧
    (workflow_run cfg env templates (some f)).records =
      [⟨"SupabaseUploadError", "upload_to_supabase_storage"⟩] := by
  rcases hg : generate_html_files env.render templates with _ | ⟨a, l⟩
  · exact absurd hg hpages
  · constructor <;> simp [workflow_run, hdata, hfold, hg, hconv, hup, hfail, emit]

/-- C2 witness: the concrete run where all five pages render, conversion
succeeds and the upload fails. -/
theorem C2_upload_failure_nonfatal_witness :
    (workflow_run cfgUpload envUploadFail defaultTemplateList
      (some (fun _ => true))).result = some "offer.pdf" ∧
    (workflow_run cfgUpload envUploadFail defaultTemplateList
      (some (fun _ => true))).records =
      [⟨"SupabaseUploadError", "upload_to_supabase_storage"⟩] :=
  C2_upload_failure_nonfatal cfgUpload envUploadFail defaultTemplateList (fun _ => true)
    "offer.pdf" "network down" rfl rfl (by decide) rfl rfl rfl

/-- C3: when the upload succeeds and delete-local-after-upload is enabled,
the run succeeds returning the remote public URL; the local PDF file no
longer exists exactly when the deletion call succeeded, and a deletion
failure leaves the run successful with the same returned URL. -/
theorem C3_delete_local_after_upload (cfg : WConfig) (env : WEnv)
    (templates : List String) (sink : Option (ErrorRecord → Bool)) (p url : String)
    (hdata : env.dataFileExists = true) (hfold : env.templatesFolderOk = true)
    (hpages : generate_html_files env.render templates ≠ [])
    (hconv : env.convertOutcome = StepOutcome.ok p)
    (hup : cfg.uploadToSupabase = true)
    (hsucc : env.upload = UploadOutcome.success url)
    (hdel : cfg.deleteLocalAfterUpload = true) :
    (workflow_run cfg env templates sink).result = some url ∧
    (workflow_run cfg env templates sink).pdfExists = !env.pdfUnlinkOk ∧
    (workflow_run cfg env templates sink).abortStage = none := by
  rcases hg : generate_html_files env.render templates with _ | ⟨a, l⟩
  · exact absurd hg hpages
  · refine ⟨?_, ?_, ?_⟩ <;>
      simp [workflow_run, hdata, hfold, hg, hconv, hup, hsucc, hdel]

/-- C3 witness: the concrete run where render, conversion, upload and the
local deletion all succeed; the returned location is the remote URL and the
local PDF is gone. -/
theorem C3_delete_local_after_upload_witness :
    (workflow_run cfgUpload envUploadOk defaultTemplateList none).result =
      some "https://cdn.example/offer.pdf" ∧
    (workflow_run cfgUpload envUploadOk defaultTemplateList none).pdfExists =
      !envUploadOk.pdfUnlinkOk ∧
    (workflow_run cfgUpload envUploadOk defaultTemplateList none).abortStage = none :=
  C3_delete_local_after_upload cfgUpload envUploadOk defaultTemplateList none
    "offer.pdf" "https://cdn.example/offer.pdf" rfl rfl (by decide) rfl rfl rfl rfl

/-- C9: the returned location, the aborting stage and the final existence of
the local artifact are identical for any two error sinks - absent, present,
or failing on every write; error-record writes are fire-and-forget and
never alter the run outcome. -/
theorem C9_error_sink_noninterference (cfg : WConfig) (env : WEnv)
    (templates : List String) (sink₁ sink₂ : Option (ErrorRecord → Bool)) :
    (workflow_run cfg env templates sink₁).result =
      (workflow_run cfg env templates sink₂).result ∧
    (workflow_run cfg env templates sink₁).abortStage =
      (workflow_run cfg env templates sink₂).abortStage ∧
    (workflow_run cfg env templates sink₁).pdfExists =
      (workflow_run cfg env templates sink₂).pdfExists := by
  rcases hd : env.dataFileExists with _ | _
  · simp [workflow_run, hd]
  · rcases ht : env.templatesFolderOk with _ | _
    · simp [workflow_run, hd, ht, abortOutput]
    · rcases hg : generate_html_files env.render templates with _ | ⟨a, l⟩
      · simp [workflow_run, hd, ht, hg, abortOutput]
      · rcases hco : env.convertOutcome with p | _ | e
        · rcases hup : cfg.uploadToSupabase with _ | _
          · simp [workflow_run, hd, ht, hg, hco, hup]
          · rcases huo : env.upload with url | err | e <;>
              simp [workflow_run, hd, ht, hg, hco, hup, huo]
        · simp [workflow_run, hd, ht, hg, hco, abortOutput]
        · simp [workflow_run, hd, ht, hg, hco, abortOutput]

end PdfGen
